import Mathlib

/-!
Verification development for the Meshtastic-BBS server (Python sources under
`src/`).  The definitions below are a shallow embedding of the parts of the
program that the checked properties talk about: the SQLite-backed record
store (`src/db_operations.py`), the replication fan-out helpers
(`src/utils.py`), the message router (`src/message_processing.py`) and the
conversation step handlers (`src/command_handlers.py`).

Modelling conventions:
* Python strings are Lean `String`; `str.lower`, `str.strip`, `str.split("|")`,
  `str.startswith` and `int(...)` are re-implemented structurally below
  (`pyLower`, `pyStrip`, `splitPipe`, `pyStartsWith`, `pyInt?`) so that all
  definitions evaluate by kernel reduction.
* The SQLite tables are lists of rows plus the AUTOINCREMENT counters;
  `datetime.now()` and the entropy behind `uuid.uuid4()` are passed in as
  explicit parameters (`now : String`, `r : Nat`).
* An uncaught Python exception is modelled as `Option.none`; in every path
  modelled here the exception is raised before any send or store mutation,
  so no partial effect is lost.
* `send_message` splits its text into chunks of at most 200 characters and
  transmits the chunks in order to one destination (`chunkChars` below);
  a `Send` records the full logical message of one `send_message` call
  together with that destination.
-/

namespace MeshBBS

/-- `meshtastic.BROADCAST_NUM`: the broadcast destination (0xFFFFFFFF). -/
def BROADCAST_NUM : Nat := 4294967295

/-- A transmission destination: either a node id string (entries of
`bbs_nodes`) or a numeric mesh address (`sender_id`, `BROADCAST_NUM`). -/
inductive Dest where
  | nodeId (s : String)
  | num (n : Nat)
deriving DecidableEq, Repr

/-- One call to `send_message` in `src/utils.py`: the full text and its
destination (the text is physically transmitted as ordered chunks of at most
200 characters, see `chunkChars`). -/
structure Send where
  msg : String
  dest : Dest
deriving DecidableEq, Repr

/-- The ≤200-character chunking loop of `send_message` (fuel-structured so it
reduces; the fuel `l.length` always suffices). -/
def chunkCharsAux : Nat → List Char → List (List Char)
  | 0, _ => []
  | _, [] => []
  | fuel + 1, l => l.take 200 :: chunkCharsAux fuel (l.drop 200)

/-- Chunks of at most 200 characters, in order, as produced by
`for i in range(0, len(message), max_payload_size)` in `send_message`. -/
def chunkChars (s : String) : List (List Char) :=
  chunkCharsAux s.data.length s.data

/-- `send_message(message, destination, interface)`: the sends this call
produces (one logical message to one destination). -/
def send_message (message : String) (destination : Dest) : List Send :=
  [⟨message, destination⟩]

/-! ### Python / SQLite string primitives -/

/-- Python `str.lower()` (ASCII case folding suffices for every string the
program lowercases: command keys and board names). -/
def pyLower (s : String) : String := ⟨s.data.map Char.toLower⟩

/-- Python `str.strip()`: drop whitespace from both ends. -/
def pyStrip (s : String) : String :=
  ⟨((s.data.dropWhile Char.isWhitespace).reverse.dropWhile Char.isWhitespace).reverse⟩

/-- Python `str.startswith(p)`. -/
def pyStartsWith (s p : String) : Bool := p.data.isPrefixOf s.data

/-- Helper for `splitPipe`: split a character list at every `'|'`,
keeping empty pieces, as Python `str.split("|")` does. -/
def splitPipeAux : List Char → List (List Char)
  | [] => [[]]
  | c :: cs =>
    let r := splitPipeAux cs
    if c = '|' then [] :: r
    else
      match r with
      | h :: t => (c :: h) :: t
      | [] => [[c]]

/-- Python `str.split("|")`. -/
def splitPipe (s : String) : List String := (splitPipeAux s.data).map String.mk

/-- Digit-string value, `none` if any character is not a decimal digit or the
list is empty. -/
def digitsVal : List Char → Option Nat
  | [] => none
  | ds =>
    if ds.all Char.isDigit then
      some (ds.foldl (fun acc c => acc * 10 + (c.toNat - '0'.toNat)) 0)
    else none

/-- Python `int(s)` on a decimal string: optional sign after stripping
whitespace (digit-group underscores are not modelled; no input the program
parses contains them). -/
def pyInt? (s : String) : Option Int :=
  match (pyStrip s).data with
  | '-' :: ds => (digitsVal ds).map (fun n => -(n : Int))
  | '+' :: ds => (digitsVal ds).map Int.ofNat
  | ds => (digitsVal ds).map Int.ofNat

/-- SQLite comparison of the INTEGER `id` column with a bound TEXT parameter:
numeric affinity converts the text to an integer when it is a well-formed
integer literal, otherwise an INTEGER value never equals a TEXT value. -/
def sqlTextMatchesId (param : String) (id : Nat) : Bool :=
  pyInt? param = some (id : Int)

/-- SQLite `COLLATE NOCASE` equality (ASCII case-insensitive). -/
def noCaseEq (a b : String) : Bool := pyLower a = pyLower b

/-! ### uuid4 -/

/-- Lower-case hexadecimal digit. -/
def hexDigitChar (n : Nat) : Char :=
  if n < 10 then Char.ofNat ('0'.toNat + n) else Char.ofNat ('a'.toNat + (n - 10))

/-- Exactly `d` hex digits of `n`, most significant first, zero padded. -/
def hexChars (n : Nat) : Nat → List Char
  | 0 => []
  | d + 1 => hexChars (n / 16) d ++ [hexDigitChar (n % 16)]

/-- `d` hex digits of `n` as a string. -/
def natToHexPad (n d : Nat) : String := String.mk (hexChars n d)

/-- Model of `str(uuid.uuid4())`: 32 hexadecimal digits of the 128-bit random
value `r`, hyphen-grouped 8-4-4-4-12 (the RFC 4122 version/variant nibble
forcing is not modelled; only the shape of the minted key matters here). -/
def uuid4String (r : Nat) : String :=
  natToHexPad (r % 2 ^ 32) 8 ++ "-" ++ natToHexPad (r / 2 ^ 32 % 2 ^ 16) 4 ++ "-" ++
    natToHexPad (r / 2 ^ 48 % 2 ^ 16) 4 ++ "-" ++ natToHexPad (r / 2 ^ 64 % 2 ^ 16) 4 ++
    "-" ++ natToHexPad (r / 2 ^ 80 % 2 ^ 48) 12

/-! ### Record store state -/

/-- A row of the `bulletins` table. -/
structure Bulletin where
  id : Nat
  board : String
  senderShortName : String
  date : String
  subject : String
  content : String
  uniqueId : String
deriving DecidableEq, Repr

/-- A row of the `mail` table. -/
structure MailRow where
  id : Nat
  sender : String
  senderShortName : String
  recipient : String
  date : String
  subject : String
  content : String
  uniqueId : String
deriving DecidableEq, Repr

/-- A row of the `channels` table. -/
structure Channel where
  id : Nat
  name : String
  url : String
deriving DecidableEq, Repr

/-- The SQLite database: the three tables (rows in insertion order) and the
next AUTOINCREMENT id of each. -/
structure DB where
  bulletins : List Bulletin
  nextBulletinId : Nat
  mail : List MailRow
  nextMailId : Nat
  channels : List Channel
  nextChannelId : Nat
deriving DecidableEq, Repr

/-- The empty database produced by `initialize_database`. -/
def DB.empty : DB := ⟨[], 1, [], 1, [], 1⟩

/-! ### Replication fan-out (src/utils.py) -/

/-- The `BULLETIN|` wire line built in `send_bulletin_to_bbs_nodes`. -/
def bulletinSyncLine (board senderShortName subject content uniqueId : String) : String :=
  "BULLETIN|" ++ board ++ "|" ++ senderShortName ++ "|" ++ subject ++ "|" ++
    content ++ "|" ++ uniqueId

/-- `send_bulletin_to_bbs_nodes`: one send of the `BULLETIN|` line per peer. -/
def send_bulletin_to_bbs_nodes (board senderShortName subject content uniqueId : String)
    (bbsNodes : List String) : List Send :=
  bbsNodes.map fun nodeId =>
    ⟨bulletinSyncLine board senderShortName subject content uniqueId, Dest.nodeId nodeId⟩

/-- The `MAIL|` wire line built in `send_mail_to_bbs_nodes`. -/
def mailSyncLine (senderId senderShortName recipientId subject content uniqueId : String) :
    String :=
  "MAIL|" ++ senderId ++ "|" ++ senderShortName ++ "|" ++ recipientId ++ "|" ++ subject ++
    "|" ++ content ++ "|" ++ uniqueId

/-- `send_mail_to_bbs_nodes`: one send of the `MAIL|` line per peer. -/
def send_mail_to_bbs_nodes (senderId senderShortName recipientId subject content uniqueId :
    String) (bbsNodes : List String) : List Send :=
  bbsNodes.map fun nodeId =>
    ⟨mailSyncLine senderId senderShortName recipientId subject content uniqueId,
      Dest.nodeId nodeId⟩

/-- `send_delete_bulletin_to_bbs_nodes`: the `DELETE_BULLETIN|` line carries
exactly the `bulletin_id` argument the caller supplied. -/
def send_delete_bulletin_to_bbs_nodes (bulletinId : String) (bbsNodes : List String) :
    List Send :=
  bbsNodes.map fun nodeId => ⟨"DELETE_BULLETIN|" ++ bulletinId, Dest.nodeId nodeId⟩

/-- `send_delete_mail_to_bbs_nodes`: the `DELETE_MAIL|` line carries the
replication key. -/
def send_delete_mail_to_bbs_nodes (uniqueId : String) (bbsNodes : List String) : List Send :=
  bbsNodes.map fun nodeId => ⟨"DELETE_MAIL|" ++ uniqueId, Dest.nodeId nodeId⟩

/-- `send_channel_to_bbs_nodes`: one send of the `CHANNEL|` line per peer. -/
def send_channel_to_bbs_nodes (name url : String) (bbsNodes : List String) : List Send :=
  bbsNodes.map fun nodeId => ⟨"CHANNEL|" ++ name ++ "|" ++ url, Dest.nodeId nodeId⟩

/-! ### Record store operations (src/db_operations.py) -/

/-- Python truthiness of `bbs_nodes and interface` (`bbs_nodes` may be a list
or `None`; `interface` present = `true`). -/
def pyNodesAnd (bbsNodes : Option (List String)) (intf : Bool) : Bool :=
  match bbsNodes with
  | none => false
  | some ns => !ns.isEmpty && intf

/-- The urgent-bulletin group-chat notification literal of
`src/db_operations.py` (its decoration characters are the source file's
exact code points). -/
def urgentNotificationDb (senderShortName subject : String) : String :=
  "ðŸ’¥NEW URGENT BULLETINðŸ’¥\nFrom: " ++
    senderShortName ++ "\nTitle: " ++ subject

/-- `add_bulletin(board, sender_short_name, subject, content, bbs_nodes,
interface, unique_id=None)`: returns the unique id together with the new
database and the sends performed.  A falsy `unique_id` (absent or `""`)
is replaced by a fresh uuid4 string. -/
def add_bulletin (board senderShortName subject content : String)
    (bbsNodes : Option (List String)) (intf : Bool) (uniqueId : Option String)
    (now : String) (r : Nat) (db : DB) : String × DB × List Send :=
  let uid :=
    match uniqueId with
    | none => uuid4String r
    | some s => if s = "" then uuid4String r else s
  let row : Bulletin := ⟨db.nextBulletinId, board, senderShortName, now, subject, content, uid⟩
  let db' := { db with bulletins := db.bulletins ++ [row],
                       nextBulletinId := db.nextBulletinId + 1 }
  let syncSends :=
    if pyNodesAnd bbsNodes intf then
      send_bulletin_to_bbs_nodes board senderShortName subject content uid
        (bbsNodes.getD [])
    else []
  let urgentSends :=
    if pyLower board = "urgent" then
      send_message (urgentNotificationDb senderShortName subject) (Dest.num BROADCAST_NUM)
    else []
  (uid, db', syncSends ++ urgentSends)

/-- `add_mail(...)`: analogous to `add_bulletin`, without an urgent branch. -/
def add_mail (senderId senderShortName recipientId subject content : String)
    (bbsNodes : Option (List String)) (intf : Bool) (uniqueId : Option String)
    (now : String) (r : Nat) (db : DB) : String × DB × List Send :=
  let uid :=
    match uniqueId with
    | none => uuid4String r
    | some s => if s = "" then uuid4String r else s
  let row : MailRow :=
    ⟨db.nextMailId, senderId, senderShortName, recipientId, now, subject, content, uid⟩
  let db' := { db with mail := db.mail ++ [row], nextMailId := db.nextMailId + 1 }
  let syncSends :=
    if pyNodesAnd bbsNodes intf then
      send_mail_to_bbs_nodes senderId senderShortName recipientId subject content uid
        (bbsNodes.getD [])
    else []
  (uid, db', syncSends)

/-- `add_channel(name, url, bbs_nodes=None, interface=None)`. -/
def add_channel (name url : String) (bbsNodes : Option (List String)) (intf : Bool)
    (db : DB) : DB × List Send :=
  let db' := { db with channels := db.channels ++ [⟨db.nextChannelId, name, url⟩],
                       nextChannelId := db.nextChannelId + 1 }
  let sends :=
    if pyNodesAnd bbsNodes intf then send_channel_to_bbs_nodes name url (bbsNodes.getD [])
    else []
  (db', sends)

/-- `get_bulletins(board)`: rows of the given board, `COLLATE NOCASE`. -/
def get_bulletins (board : String) (db : DB) : List Bulletin :=
  db.bulletins.filter fun b => noCaseEq b.board board

/-- `get_bulletin_content(bulletin_id)`: the first row whose id matches. -/
def get_bulletin_content (bulletinId : Int) (db : DB) : Option Bulletin :=
  db.bulletins.find? fun b => (b.id : Int) = bulletinId

/-- `delete_bulletin(bulletin_id, bbs_nodes, interface)`: deletes the rows
whose local `id` column matches the parameter (SQLite numeric affinity,
see `sqlTextMatchesId`), then unconditionally fans the parameter out in a
`DELETE_BULLETIN|` line. -/
def delete_bulletin (bulletinId : String) (bbsNodes : List String) (db : DB) :
    DB × List Send :=
  ({ db with bulletins := db.bulletins.filter fun b => !sqlTextMatchesId bulletinId b.id },
    send_delete_bulletin_to_bbs_nodes bulletinId bbsNodes)

/-- `get_mail(recipient_id)`: rows for the recipient (a `None` recipient is
the SQL `recipient = NULL` comparison, which matches nothing). -/
def get_mail (recipientId : Option String) (db : DB) : List MailRow :=
  match recipientId with
  | none => []
  | some rc => db.mail.filter fun m => m.recipient = rc

/-- `get_sender_id_by_mail_id(mail_id)`. -/
def get_sender_id_by_mail_id (mailId : Int) (db : DB) : Option String :=
  (db.mail.find? fun m => (m.id : Int) = mailId).map (·.sender)

/-- `delete_mail(unique_id, recipient_id, bbs_nodes, interface)`: the claimed
`recipient_id` argument is overwritten by the recipient re-read from storage;
when no row carries the key the function returns before deleting or
sending anything. -/
def delete_mail (uniqueId : String) (claimedRecipient : Option String)
    (bbsNodes : List String) (db : DB) : DB × List Send :=
  match db.mail.find? (fun m => m.uniqueId = uniqueId) with
  | none => (db, [])
  | some row =>
    let recipientId := row.recipient
    ({ db with mail :=
        db.mail.filter fun m => !(m.uniqueId = uniqueId && m.recipient = recipientId) },
      send_delete_mail_to_bbs_nodes uniqueId bbsNodes)

/-! ### Sync-message processing (src/message_processing.py, `is_sync_message` branch) -/

/-- The urgent-bulletin notification literal of the sync branch of
`process_message` in `src/message_processing.py` (this file carries the
intact emoji, unlike `src/db_operations.py`). -/
def urgentNotificationSync (senderShortName subject : String) : String :=
  "💥NEW URGENT BULLETIN💥\nFrom: " ++ senderShortName ++ "\nTitle: " ++ subject

/-- `get_recipient_id_by_mail(unique_id)`. -/
def get_recipient_id_by_mail (uniqueId : String) (db : DB) : Option String :=
  (db.mail.find? fun m => m.uniqueId = uniqueId).map (·.recipient)

/-- The `is_sync_message=True` branch of `process_message`: applies the
replicated mutation with an empty peer list.  `none` is the `IndexError`
raised when the line has too few fields (it occurs before any send or store
mutation). -/
def process_sync_message (message : String) (now : String) (r : Nat) (db : DB) :
    Option (DB × List Send) :=
  if pyStartsWith message "BULLETIN|" then
    let parts := splitPipe message
    match parts.get? 1, parts.get? 2, parts.get? 3, parts.get? 4, parts.get? 5 with
    | some board, some senderShortName, some subject, some content, some uniqueId =>
      let res := add_bulletin board senderShortName subject content (some []) true
        (some uniqueId) now r db
      let urgentSends :=
        if pyLower board = "urgent" then
          send_message (urgentNotificationSync senderShortName subject)
            (Dest.num BROADCAST_NUM)
        else []
      some (res.2.1, res.2.2 ++ urgentSends)
    | _, _, _, _, _ => none
  else if pyStartsWith message "MAIL|" then
    let parts := splitPipe message
    match parts.get? 1, parts.get? 2, parts.get? 3, parts.get? 4, parts.get? 5,
        parts.get? 6 with
    | some senderId, some senderShortName, some recipientId, some subject, some content,
        some uniqueId =>
      let res := add_mail senderId senderShortName recipientId subject content (some [])
        true (some uniqueId) now r db
      some (res.2.1, res.2.2)
    | _, _, _, _, _, _ => none
  else if pyStartsWith message "DELETE_BULLETIN|" then
    match (splitPipe message).get? 1 with
    | some uniqueId => some (delete_bulletin uniqueId [] db)
    | none => none
  else if pyStartsWith message "DELETE_MAIL|" then
    match (splitPipe message).get? 1 with
    | some uniqueId =>
      some (delete_mail uniqueId (get_recipient_id_by_mail uniqueId db) [] db)
    | none => none
  else if pyStartsWith message "CHANNEL|" then
    let parts := splitPipe message
    match parts.get? 1, parts.get? 2 with
    | some channelName, some channelUrl => some (add_channel channelName channelUrl none false db)
    | _, _ => none
  else some (db, [])

/-! ### Sessions, interface and configuration -/

/-- A session record, the dict stored in `user_states`: the `command` tag and
`step` are always present in program-created sessions; `menu`, `board`,
`subject` and `content` model the optional keys (absent = `none`, and reading
an absent key is the Python `KeyError`). -/
structure UserState where
  command : String
  step : Nat
  menu : Option String
  board : Option String
  subject : Option String
  content : Option String
deriving DecidableEq, Repr

/-- A session with only `command` and `step` keys. -/
def mkState (command : String) (step : Nat) : UserState :=
  ⟨command, step, none, none, none, none⟩

/-- The `user_states` dict, keyed by numeric sender id; `update_user_state`
may store `None`, which `get_user_state` returns just like a missing key. -/
abbrev Sessions := List (Nat × Option UserState)

/-- `get_user_state(user_id)`. -/
def get_user_state (userId : Nat) (ss : Sessions) : Option UserState :=
  match ss.find? fun p => p.1 = userId with
  | some p => p.2
  | none => none

/-- `update_user_state(user_id, state)` (most recent entry wins). -/
def update_user_state (userId : Nat) (st : Option UserState) (ss : Sessions) : Sessions :=
  (userId, st) :: ss

/-- `interface.nodes[node_id]["user"]`: the directory entry of one node (the
`shortName` key is always present in directory entries this model considers,
matching `node_info["user"].get("shortName", ...)` never taking its default). -/
structure NodeUser where
  num : Nat
  shortName : String
  longName : String
deriving DecidableEq, Repr

/-- The mesh interface object as the handlers see it: the node directory and
the two configured lists attached in `server.py`. -/
structure Iface where
  nodes : List (String × NodeUser)
  bbsNodes : List String
  allowedNodes : List String
deriving DecidableEq, Repr

/-- `get_node_id_from_num(node_num, interface)`. -/
def get_node_id_from_num (nodeNum : Nat) (iface : Iface) : Option String :=
  (iface.nodes.find? fun p => p.2.num = nodeNum).map (·.1)

/-- Python `x not in l` for the possibly-`None` node id (matching
`None not in list_of_strings = True`), negated: membership. -/
def pyInOpt (x : Option String) (l : List String) : Bool :=
  match x with
  | some s => l.contains s
  | none => false

/-- The `config.ini` menu configuration read at module load of
`src/command_handlers.py`. -/
structure Config where
  mainMenuItems : List String
  bbsMenuItems : List String
  utilitiesMenuItems : List String
  serviceName : String
deriving DecidableEq, Repr

/-- One iteration of the `build_menu` item loop (match on `item.strip()`). -/
def menuItemLine (item : String) : String :=
  let it := pyStrip item
  if it = "Q" then "[Q]uick Commands\n"
  else if it = "B" then "[B]BS\n"
  else if it = "U" then "[U]tilities\n"
  else if it = "X" then "E[X]IT\n"
  else if it = "M" then "[M]ail\n"
  else if it = "C" then "[C]hannel Dir\n"
  else if it = "J" then "[J]S8CALL\n"
  else if it = "S" then "[S]tats\n"
  else if it = "F" then "[F]ortune\n"
  else if it = "W" then "[W]all of Shame\n"
  else ""

/-- `build_menu(items, menu_name)`. -/
def build_menu (items : List String) (menuName : String) : String :=
  items.foldl (fun acc it => acc ++ menuItemLine it) (menuName ++ "\n")

/-- The observable state threaded through the handlers: the database, the
session map and the sends performed so far (in order). -/
structure World where
  db : DB
  sessions : Sessions
  sends : List Send
deriving DecidableEq, Repr

/-- Append one `send_message` call to the world. -/
def emit (msg : String) (dest : Dest) (w : World) : World :=
  { w with sends := w.sends ++ send_message msg dest }

/-! ### Conversation handlers (src/command_handlers.py) -/

/-- The mis-decoded envelope decoration in the main-menu header literal
`f"{service_name} (‚úâÔ∏è:{len(mail)})"` of `src/command_handlers.py`. -/
def mailHeaderDecoration : String := "‚úâÔ∏è"

/-- `handle_help_command(sender_id, interface, menu_name=None)`. -/
def handle_help_command (senderId : Nat) (iface : Iface) (cfg : Config)
    (menuName : Option String) (w : World) : World :=
  match menuName with
  | some name =>
    let w := { w with sessions :=
      update_user_state senderId (some ⟨"MENU", 1, some name, none, none, none⟩) w.sessions }
    let response :=
      if name = "bbs" then build_menu cfg.bbsMenuItems "Menu"
      else if name = "utilities" then build_menu cfg.utilitiesMenuItems "Utilities Menu"
      else "Nothing to reply"
    emit response (Dest.num senderId) w
  | none =>
    let w := { w with sessions :=
      update_user_state senderId (some (mkState "MAIN_MENU" 1)) w.sessions }
    let mail := get_mail (get_node_id_from_num senderId iface) w.db
    let response := build_menu cfg.mainMenuItems
      (cfg.serviceName ++ " (" ++ mailHeaderDecoration ++ ":" ++ toString mail.length ++ ")")
    emit response (Dest.num senderId) w

/-- `handle_mail_command(sender_id, interface)`. -/
def handle_mail_command (senderId : Nat) (w : World) : World :=
  let w := emit "Mail Menu\nWhat would you like to do with mail?\n[R]ead  [S]end E[X]IT"
    (Dest.num senderId) w
  { w with sessions := update_user_state senderId (some (mkState "MAIL" 1)) w.sessions }

/-- `handle_bulletin_command(sender_id, interface)`. -/
def handle_bulletin_command (senderId : Nat) (w : World) : World :=
  let w := emit
    "Bulletin Menu\nWhich board would you like to enter?\n[G]eneral  [I]nfo  [N]ews  [U]rgent"
    (Dest.num senderId) w
  { w with sessions :=
      update_user_state senderId (some (mkState "BULLETIN_MENU" 1)) w.sessions }

/-- The `boards` dict of `handle_bb_steps`. -/
def boardsDict (i : Int) : Option String :=
  if i = 0 then some "General"
  else if i = 1 then some "Info"
  else if i = 2 then some "News"
  else if i = 3 then some "Urgent"
  else none

/-- `handle_bb_steps`, step 1: board selection (does not read the session
dict).  `none` models the `ValueError` of `int(message)` or the `KeyError`
of `boards[...]`, both raised before any effect. -/
def handle_bb_step1 (senderId : Nat) (message : String) (iface : Iface) (cfg : Config)
    (w : World) : Option World :=
  if pyLower message = "e" then some (handle_help_command senderId iface cfg (some "bbs") w)
  else
    match pyInt? message with
    | none => none
    | some i =>
      match boardsDict i with
      | none => none
      | some boardName =>
        let bulletins := get_bulletins boardName w.db
        let w := emit (boardName ++ " has " ++ toString bulletins.length ++
          " messages.\n[R]ead  [P]ost") (Dest.num senderId) w
        let ss := update_user_state senderId
          (some ⟨"BULLETIN_ACTION", 2, none, some boardName, none, none⟩) w.sessions
        some { w with sessions := ss }

/-- `handle_bb_steps`, step 2: read-or-post, with the urgent-board allow-list
gate on the post branch. -/
def handle_bb_step2 (senderId : Nat) (message : String) (st : UserState) (iface : Iface)
    (cfg : Config) (w : World) : Option World :=
  match st.board with
  | none => none
  | some boardName =>
    if pyLower message = "r" then
      let bulletins := get_bulletins boardName w.db
      if !bulletins.isEmpty then
        let w := emit ("Select a bulletin number to view from " ++ boardName ++ ":")
          (Dest.num senderId) w
        let w := bulletins.foldl (fun w b =>
          emit ("[" ++ toString b.id ++ "] " ++ b.subject) (Dest.num senderId) w) w
        let ss := update_user_state senderId
          (some ⟨"BULLETIN_READ", 3, none, some boardName, none, none⟩) w.sessions
        some { w with sessions := ss }
      else
        let w := emit ("No bulletins in " ++ boardName ++ ".") (Dest.num senderId) w
        handle_bb_step1 senderId "e" iface cfg w
    else if pyLower message = "p" then
      let post : Option World :=
        let w := emit "What is the subject of your bulletin? Keep it short."
          (Dest.num senderId) w
        let ss := update_user_state senderId
          (some ⟨"BULLETIN_POST", 4, none, some boardName, none, none⟩) w.sessions
        some { w with sessions := ss }
      if pyLower boardName = "urgent" then
        let nodeId := get_node_id_from_num senderId iface
        if !iface.allowedNodes.isEmpty && !pyInOpt nodeId iface.allowedNodes then
          let w := emit "You don't have permission to post to this board."
            (Dest.num senderId) w
          handle_bb_step1 senderId "e" iface cfg w
        else post
      else post
    else some w

/-- `handle_bb_steps`, step 3: view one bulletin.  `none` models `ValueError`
on `int(message)`, the `TypeError` of unpacking a missing row, or the
(program-unreachable) `KeyError` on a session without `board`. -/
def handle_bb_step3 (senderId : Nat) (message : String) (st : UserState) (iface : Iface)
    (cfg : Config) (w : World) : Option World :=
  match pyInt? message with
  | none => none
  | some bid =>
    match get_bulletin_content bid w.db with
    | none => none
    | some b =>
      let w := emit ("From: " ++ b.senderShortName ++ "\nDate: " ++ b.date ++
        "\nSubject: " ++ b.subject ++ "\n- - - - - - -\n" ++ b.content)
        (Dest.num senderId) w
      match st.board with
      | none => none
      | some _ => handle_bb_step1 senderId "e" iface cfg w

/-- `handle_bb_steps`, step 4: record the subject, ask for the body. -/
def handle_bb_step4 (senderId : Nat) (message : String) (st : UserState) (w : World) :
    Option World :=
  let subject := message
  let w := emit "Send the contents of your bulletin. Send a message with END when finished."
    (Dest.num senderId) w
  match st.board with
  | none => none
  | some boardName =>
    let ss := update_user_state senderId
      (some ⟨"BULLETIN_POST_CONTENT", 5, none, some boardName, some subject, some ""⟩)
      w.sessions
    some { w with sessions := ss }

/-- The mis-decoded shrug decoration of the posted-bulletin confirmation in
`src/command_handlers.py` (exact source code points). -/
def postedDecorationA : String := "‚ïØ¬∞‚ñ°¬∞"

/-- Second decoration run of the posted-bulletin confirmation. -/
def postedDecorationB : String := "‚ïØ"

/-- `handle_bb_steps`, step 5: accumulate body lines until the terminator
`END` (case-insensitive), then commit via `add_bulletin` and fan out. -/
def handle_bb_step5 (senderId : Nat) (message : String) (st : UserState) (iface : Iface)
    (cfg : Config) (bbsNodes : Option (List String)) (now : String) (r : Nat) (w : World) :
    Option World :=
  if pyLower message = "end" then
    match st.board, st.subject, st.content with
    | some board, some subject, some content =>
      let nodeId := get_node_id_from_num senderId iface
      let nodeInfo := nodeId.bind fun nid =>
        (iface.nodes.find? fun p => p.1 = nid).map (·.2)
      match nodeInfo with
      | none =>
        let w := emit "Error: Unable to retrieve your node information."
          (Dest.num senderId) w
        some { w with sessions := update_user_state senderId none w.sessions }
      | some user =>
        let senderShortName := user.shortName
        let res := add_bulletin board senderShortName subject content bbsNodes true none
          now r w.db
        let w := { w with db := res.2.1, sends := w.sends ++ res.2.2 }
        let w := emit ("Your bulletin '" ++ subject ++ "' has been posted to " ++ board ++
          ".\n(" ++ postedDecorationA ++ ")" ++ postedDecorationB ++ "[" ++ board ++ "]")
          (Dest.num senderId) w
        handle_bb_step1 senderId "e" iface cfg w
    | _, _, _ => none
  else
    match st.content with
    | none => none
    | some c =>
      let st' := { st with content := some (c ++ message ++ "\n") }
      some { w with sessions := update_user_state senderId (some st') w.sessions }

/-- `handle_bb_steps(sender_id, message, step, state, interface, bbs_nodes)`:
dispatch on the step number (a step outside 1–5 does nothing). -/
def handle_bb_steps (senderId : Nat) (message : String) (step : Nat) (st : UserState)
    (iface : Iface) (cfg : Config) (bbsNodes : Option (List String)) (now : String)
    (r : Nat) (w : World) : Option World :=
  if step = 1 then handle_bb_step1 senderId message iface cfg w
  else if step = 2 then handle_bb_step2 senderId message st iface cfg w
  else if step = 3 then handle_bb_step3 senderId message st iface cfg w
  else if step = 4 then handle_bb_step4 senderId message st w
  else if step = 5 then handle_bb_step5 senderId message st iface cfg bbsNodes now r w
  else some w

/-! ### Command routing (src/message_processing.py, non-sync branch) -/

/-- Outcome of `process_message`: either the fragment modelled here ran to
completion, or control was handed to a step handler outside the modelled
fragment (named, with the world unchanged at hand-off time). -/
inductive ProcResult where
  | done (w : World)
  | external (handlerName : String) (w : World)
deriving DecidableEq, Repr

/-- The handler-table choice of the non-sync branch. -/
inductive MenuTable where
  | main | bbs | utilities | bulletinMenu | boardAction
deriving DecidableEq, Repr

/-- The keys of each handler table (`main_menu_handlers`,
`bbs_menu_handlers`, `utilities_menu_handlers`, `bulletin_menu_handlers`,
`board_action_handlers`). -/
def tableKeys : MenuTable → List String
  | .main => ["q", "b", "u", "x"]
  | .bbs => ["m", "b", "c", "j", "x"]
  | .utilities => ["s", "f", "w", "x"]
  | .bulletinMenu => ["g", "i", "n", "u", "x"]
  | .boardAction => ["r", "p", "x"]

/-- The `state["command"] in ["BULLETIN_ACTION", "BULLETIN_READ",
"BULLETIN_POST", "BULLETIN_POST_CONTENT"]` test deciding handler arity. -/
def cmdIsBulletinCtx (c : String) : Bool :=
  c = "BULLETIN_ACTION" || c = "BULLETIN_READ" || c = "BULLETIN_POST" ||
    c = "BULLETIN_POST_CONTENT"

/-- Invoke `handlers[message_lower]` for a key present in the chosen table.
`none` covers the arity-mismatch `TypeError` paths (a three-argument call of
a two-argument handler and vice versa) and the program-unreachable
three-argument `"x"` entry; the router intercepts `"x"` before this point. -/
def invokeTableHandler (tbl : MenuTable) (key : String) (senderId : Nat)
    (stOpt : Option UserState) (iface : Iface) (cfg : Config) (w : World) :
    Option ProcResult :=
  let threeArg :=
    match stOpt with
    | some st => cmdIsBulletinCtx st.command
    | none => false
  match tbl with
  | .boardAction =>
    if threeArg then
      match stOpt with
      | some st =>
        if key = "r" then (handle_bb_step2 senderId "r" st iface cfg w).map .done
        else if key = "p" then (handle_bb_step2 senderId "p" st iface cfg w).map .done
        else none
      | none => none
    else none
  | _ =>
    if threeArg then none
    else
      match tbl with
      | .main =>
        if key = "q" then some (.external "handle_quick_help_command" w)
        else if key = "b" then
          some (.done (handle_help_command senderId iface cfg (some "bbs") w))
        else if key = "u" then
          some (.done (handle_help_command senderId iface cfg (some "utilities") w))
        else some (.done (handle_help_command senderId iface cfg none w))
      | .bbs =>
        if key = "m" then some (.done (handle_mail_command senderId w))
        else if key = "b" then some (.done (handle_bulletin_command senderId w))
        else if key = "c" then some (.external "handle_channel_directory_command" w)
        else if key = "j" then some (.external "handle_js8call_command" w)
        else some (.done (handle_help_command senderId iface cfg none w))
      | .utilities =>
        if key = "s" then some (.external "handle_stats_command" w)
        else if key = "f" then some (.external "handle_fortune_command" w)
        else if key = "w" then some (.external "handle_wall_of_shame_command" w)
        else some (.done (handle_help_command senderId iface cfg none w))
      | .bulletinMenu =>
        if key = "g" then (handle_bb_step1 senderId "0" iface cfg w).map .done
        else if key = "i" then (handle_bb_step1 senderId "1" iface cfg w).map .done
        else if key = "n" then (handle_bb_step1 senderId "2" iface cfg w).map .done
        else if key = "u" then (handle_bb_step1 senderId "3" iface cfg w).map .done
        else some (.done (handle_help_command senderId iface cfg none w))
      | .boardAction => none

/-- The `elif state:` command chain at the end of `process_message`. -/
def dispatchByCommand (senderId : Nat) (message : String) (st : UserState) (iface : Iface)
    (cfg : Config) (bbsNodes : Option (List String)) (now : String) (r : Nat) (w : World) :
    Option ProcResult :=
  if st.command = "MAIL" then some (.external "handle_mail_steps" w)
  else if st.command = "BULLETIN" then
    (handle_bb_steps senderId message st.step st iface cfg bbsNodes now r w).map .done
  else if st.command = "STATS" then some (.external "handle_stats_steps" w)
  else if st.command = "CHANNEL_DIRECTORY" then
    some (.external "handle_channel_directory_steps" w)
  else if st.command = "CHECK_MAIL" then
    if st.step = 1 then some (.external "handle_read_mail_command" w)
    else if st.step = 2 then some (.external "handle_delete_mail_confirmation" w)
    else some (.done w)
  else if st.command = "CHECK_BULLETIN" then
    if st.step = 1 then some (.external "handle_read_bulletin_command" w)
    else some (.done w)
  else if st.command = "CHECK_CHANNEL" then
    if st.step = 1 then some (.external "handle_read_channel_command" w)
    else some (.done w)
  else if st.command = "LIST_CHANNELS" then
    if st.step = 1 then some (.external "handle_read_channel_command" w)
    else some (.done w)
  else if st.command = "BULLETIN_POST" then
    (handle_bb_steps senderId message 4 st iface cfg bbsNodes now r w).map .done
  else if st.command = "BULLETIN_POST_CONTENT" then
    (handle_bb_steps senderId message 5 st iface cfg bbsNodes now r w).map .done
  else if st.command = "BULLETIN_READ" then
    (handle_bb_steps senderId message 3 st iface cfg bbsNodes now r w).map .done
  else if st.command = "JS8CALL_MENU" then some (.external "handle_js8call_steps" w)
  else if st.command = "GROUP_MESSAGES" then
    some (.external "handle_group_message_selection" w)
  else some (.done (handle_help_command senderId iface cfg none w))

/-- `process_message(sender_id, message, interface, is_sync_message=False)`.
`none` is an uncaught exception on the dispatched path. -/
def process_message (senderId : Nat) (message : String) (iface : Iface) (cfg : Config)
    (isSyncMessage : Bool) (now : String) (r : Nat) (w : World) : Option ProcResult :=
  let state := get_user_state senderId w.sessions
  let ml0 := pyStrip (pyLower message)
  let messageLower : String :=
    if ml0.data.length = 2 && ml0.data.get? 1 = some 'x' then ⟨ml0.data.take 1⟩ else ml0
  let bbsNodes := iface.bbsNodes
  let routeWithTable : MenuTable → Option ProcResult := fun tbl =>
    if messageLower = "x" then
      some (.done (handle_help_command senderId iface cfg none w))
    else if (tableKeys tbl).contains messageLower then
      invokeTableHandler tbl messageLower senderId state iface cfg w
    else
      match state with
      | some st => dispatchByCommand senderId message st iface cfg (some bbsNodes) now r w
      | none => some (.done (handle_help_command senderId iface cfg none w))
  if isSyncMessage then
    (process_sync_message message now r w.db).map fun p =>
      .done { w with db := p.1, sends := w.sends ++ p.2 }
  else if pyStartsWith messageLower "sm,," then some (.external "handle_send_mail_command" w)
  else if pyStartsWith messageLower "cm" then some (.external "handle_check_mail_command" w)
  else if pyStartsWith messageLower "pb,," then
    some (.external "handle_post_bulletin_command" w)
  else if pyStartsWith messageLower "cb,," then
    some (.external "handle_check_bulletin_command" w)
  else if pyStartsWith messageLower "chp,," then
    some (.external "handle_post_channel_command" w)
  else if pyStartsWith messageLower "chl" then
    some (.external "handle_list_channels_command" w)
  else
    match state with
    | some st =>
      if st.command = "MENU" then
        match st.menu with
        | none => none
        | some mn =>
          let tbl :=
            if mn = "bbs" then MenuTable.bbs
            else if mn = "utilities" then MenuTable.utilities
            else MenuTable.main
          routeWithTable tbl
      else if st.command = "BULLETIN_MENU" then routeWithTable .bulletinMenu
      else if st.command = "BULLETIN_ACTION" then routeWithTable .boardAction
      else if st.command = "JS8CALL_MENU" then some (.external "handle_js8call_steps" w)
      else if st.command = "GROUP_MESSAGES" then
        some (.external "handle_group_message_selection" w)
      else routeWithTable .main
    | none => routeWithTable .main

/-! ### Reception classifier (src/message_processing.py, `on_receive`) -/

/-- How `on_receive` disposes of a decoded text packet. -/
inductive RxAction where
  | processedSync
  | processedNormal
  | ignored
deriving DecidableEq, Repr

/-- The prefixes `on_receive` recognizes as synchronization messages
(`CHANNEL|` is absent from this list in the source). -/
def sync_prefixes : List String :=
  ["BULLETIN|", "MAIL|", "DELETE_BULLETIN|", "DELETE_MAIL|"]

/-- `is_sync_message` as computed in `on_receive`. -/
def is_sync_message (message : String) : Bool :=
  sync_prefixes.any fun p => pyStartsWith message p

/-- The routing decision of `on_receive` for a decoded TEXT_MESSAGE_APP
packet: sync-process, normal-process, or ignore. -/
def on_receive_route (message : String) (senderNodeId : String) (toId : Option Nat)
    (myNodeNum : Nat) (bbsNodes : List String) : RxAction :=
  if senderNodeId ∈ bbsNodes then
    if is_sync_message message then RxAction.processedSync else RxAction.ignored
  else
    match toId with
    | some t =>
      if t ≠ 0 ∧ t ≠ 255 ∧ t = myNodeNum then RxAction.processedNormal else RxAction.ignored
    | none => RxAction.ignored

/-! ### Concrete fixtures used by witnesses and counterexamples -/

/-- A sample menu configuration (the default `config.ini` layout). -/
def sampleCfg : Config :=
  ⟨["Q", "B", "U", "X"], ["M", "B", "C", "J", "X"], ["S", "F", "W", "X"], "TC2BBS"⟩

/-- A sample interface: one directory node (numeric id 5, short name `AL`),
one configured peer and one allow-listed address. -/
def sampleIface : Iface := ⟨[("!node5", ⟨5, "AL", "Alice"⟩)], ["!peer1"], ["!boss"]⟩

/-- A fresh world: empty database, no sessions, no sends. -/
def sampleWorld : World := ⟨DB.empty, [], []⟩

/-- A database holding a single bulletin with local id 1 and replication
key `abc-123`. -/
def dbOneBulletin : DB :=
  { DB.empty with bulletins := [⟨1, "General", "AL", "d1", "subj", "body", "abc-123"⟩],
                  nextBulletinId := 2 }

/-- The database after the never-reached sync `CHANNEL|` branch would have
added the channel `MeshNews`. -/
def dbOneChannel : DB :=
  { DB.empty with channels := [⟨1, "MeshNews", "http://example.com"⟩], nextChannelId := 2 }

/-- A database holding a single mail row with replication key `mk-1`
addressed to `!node5`. -/
def dbOneMail : DB :=
  { DB.empty with mail := [⟨1, "!node9", "BO", "!node5", "d1", "hi", "text", "mk-1"⟩],
                  nextMailId := 2 }

end MeshBBS

namespace MeshBBS

/-! ### Helper lemmas -/

/-- Characters of an appended string. -/
theorem data_append (a b : String) : (a ++ b).data = a.data ++ b.data := by
  cases a; cases b; rfl

/-- A string differs from another when their first characters differ. -/
theorem string_ne_of_head_ne (a b : String) (h : a.data.head? ≠ b.data.head?) : a ≠ b :=
  fun e => h (by rw [e])

/-- `hexChars` always produces exactly `d` characters. -/
theorem hexChars_length (n d : Nat) : (hexChars n d).length = d := by
  induction d generalizing n with
  | zero => rfl
  | succ d ih => simp [hexChars, ih]

/-- A minted uuid4 string has 36 characters. -/
theorem uuid4String_length (r : Nat) : (uuid4String r).length = 36 := by
  simp [uuid4String, natToHexPad, String.length_append, String.length, hexChars_length]

/-- A minted uuid4 string is never empty. -/
theorem uuid4String_ne_empty (r : Nat) : uuid4String r ≠ "" := by
  intro h
  have := uuid4String_length r
  rw [h] at this
  simp [String.length] at this

/-- Fanning a bulletin out to no peers sends nothing. -/
theorem send_bulletin_to_bbs_nodes_nil (board sn subj c uid : String) :
    send_bulletin_to_bbs_nodes board sn subj c uid [] = [] := rfl

/-- Fanning mail out to no peers sends nothing. -/
theorem send_mail_to_bbs_nodes_nil (sid sn rid subj c uid : String) :
    send_mail_to_bbs_nodes sid sn rid subj c uid [] = [] := rfl

/-- Fanning a bulletin deletion out to no peers sends nothing. -/
theorem send_delete_bulletin_to_bbs_nodes_nil (bid : String) :
    send_delete_bulletin_to_bbs_nodes bid [] = [] := rfl

/-- Fanning a mail deletion out to no peers sends nothing. -/
theorem send_delete_mail_to_bbs_nodes_nil (uid : String) :
    send_delete_mail_to_bbs_nodes uid [] = [] := rfl

/-- Fanning a channel out to no peers sends nothing. -/
theorem send_channel_to_bbs_nodes_nil (name url : String) :
    send_channel_to_bbs_nodes name url [] = [] := rfl

/-- With an empty peer list, `add_bulletin` sends at most the urgent
group-chat notification. -/
theorem add_bulletin_emptyPeers_sends (board sn subj c : String) (uid : Option String)
    (now : String) (r : Nat) (db : DB) :
    (add_bulletin board sn subj c (some []) true uid now r db).2.2 =
      if pyLower board = "urgent" then
        [⟨urgentNotificationDb sn subj, Dest.num BROADCAST_NUM⟩]
      else [] := by
  simp [add_bulletin, pyNodesAnd, send_message]

/-- With an empty peer list, `add_mail` sends nothing. -/
theorem add_mail_emptyPeers_sends (sid sn rid subj c : String) (uid : Option String)
    (now : String) (r : Nat) (db : DB) :
    (add_mail sid sn rid subj c (some []) true uid now r db).2.2 = [] := by
  simp [add_mail, pyNodesAnd]

/-- With an empty peer list, `delete_mail` sends nothing. -/
theorem delete_mail_nilPeers_sends (uid : String) (c : Option String) (db : DB) :
    (delete_mail uid c [] db).2 = [] := by
  unfold delete_mail
  split <;> simp [send_delete_mail_to_bbs_nodes]

/-- Appending on the right keeps the first character. -/
theorem data_head?_append_left (a b : String) (c : Char) (h : a.data.head? = some c) :
    (a ++ b).data.head? = some c := by
  rw [data_append, List.head?_append_of_ne_nil _ (fun hnil => by simp [hnil] at h), h]

/-- String append is associative. -/
theorem string_append_assoc (a b c : String) : a ++ b ++ c = a ++ (b ++ c) := by
  cases a; cases b; cases c
  exact congrArg String.mk (List.append_assoc _ _ _)

/-- The store-layer urgent notification starts with the first decoration
character, not with `B`. -/
theorem urgentNotificationDb_head (sn subj : String) :
    (urgentNotificationDb sn subj).data.head? = some 'ð' := by
  unfold urgentNotificationDb
  exact data_head?_append_left _ subj _
    (data_head?_append_left _ "\nTitle: " _
      (data_head?_append_left _ sn _ (by decide)))

/-- A `BULLETIN|` wire line starts with `B`. -/
theorem bulletinSyncLine_head (b sn subj c u : String) :
    (bulletinSyncLine b sn subj c u).data.head? = some 'B' := by
  unfold bulletinSyncLine
  exact data_head?_append_left _ u _
    (data_head?_append_left _ "|" _
      (data_head?_append_left _ c _
        (data_head?_append_left _ "|" _
          (data_head?_append_left _ subj _
            (data_head?_append_left _ "|" _
              (data_head?_append_left _ sn _
                (data_head?_append_left _ "|" _
                  (data_head?_append_left _ b _ (by decide)))))))))

/-- Reading back the session just written. -/
theorem get_user_state_update (uid : Nat) (st : Option UserState) (ss : Sessions) :
    get_user_state uid (update_user_state uid st ss) = st := by
  simp [get_user_state, update_user_state, List.find?]

/-! ### Claim theorems -/

/-- C1: the claim says replicated bulletin deletion is correlated by the
replication key.  In the code it is correlated by the *local id*: on a store
holding the bulletin (local id 1, replication key `abc-123`), a local
`delete_bulletin` puts the local id — not the key — on the
`DELETE_BULLETIN|` wire line, and a peer applying
`DELETE_BULLETIN|abc-123` deletes nothing, because the key is compared
against the `id` column. -/
theorem delete_bulletin_keyed_by_local_id :
    (delete_bulletin "1" ["!peer1"] dbOneBulletin).2 =
      [⟨"DELETE_BULLETIN|1", Dest.nodeId "!peer1"⟩] ∧
    (delete_bulletin "1" ["!peer1"] dbOneBulletin).1.bulletins = [] ∧
    process_sync_message "DELETE_BULLETIN|abc-123" "t" 0 dbOneBulletin =
      some (dbOneBulletin, []) := by
  refine ⟨rfl, by decide, by decide⟩

/-- C2: applying an inbound replication message (any of the five wire kinds)
never emits a wire line to any peer: every send the sync branch performs goes
to the broadcast address, and each fan-out helper sends to no node when its
peer list is empty. -/
theorem sync_application_never_replicates (message now : String) (r : Nat) (db : DB)
    (out : DB × List Send)
    (hsync : (["BULLETIN|", "MAIL|", "DELETE_BULLETIN|", "DELETE_MAIL|", "CHANNEL|"].any
      fun p => pyStartsWith message p) = true)
    (h : process_sync_message message now r db = some out) :
    (∀ s ∈ out.2, s.dest = Dest.num BROADCAST_NUM) ∧
    (∀ b sn subj c uid, send_bulletin_to_bbs_nodes b sn subj c uid [] = []) ∧
    (∀ sid sn rid subj c uid, send_mail_to_bbs_nodes sid sn rid subj c uid [] = []) ∧
    (∀ bid, send_delete_bulletin_to_bbs_nodes bid [] = []) ∧
    (∀ uid, send_delete_mail_to_bbs_nodes uid [] = []) ∧
    (∀ name url, send_channel_to_bbs_nodes name url [] = []) := by
  refine ⟨?_, fun _ _ _ _ _ => rfl, fun _ _ _ _ _ _ => rfl, fun _ => rfl, fun _ => rfl,
    fun _ _ => rfl⟩
  intro s hs
  unfold process_sync_message at h
  simp only [] at h
  split at h
  · -- BULLETIN|
    split at h
    · rename_i board sn subj content uid h1 h2 h3 h4 h5
      injection h with h
      subst h
      simp only [add_bulletin_emptyPeers_sends, List.mem_append] at hs
      by_cases hb : pyLower board = "urgent"
      · simp [hb, send_message] at hs
        rcases hs with rfl | rfl <;> rfl
      · simp [hb] at hs
    · exact absurd h (by simp)
  · split at h
    · -- MAIL|
      split at h
      · injection h with h
        subst h
        simp [add_mail_emptyPeers_sends] at hs
      · exact absurd h (by simp)
    · split at h
      · -- DELETE_BULLETIN|
        split at h
        · injection h with h
          subst h
          simp [delete_bulletin, send_delete_bulletin_to_bbs_nodes] at hs
        · exact absurd h (by simp)
      · split at h
        · -- DELETE_MAIL|
          split at h
          · injection h with h
            subst h
            simp [delete_mail_nilPeers_sends] at hs
          · exact absurd h (by simp)
        · split at h
          · -- CHANNEL|
            split at h
            · injection h with h
              subst h
              simp [add_channel, pyNodesAnd] at hs
            · exact absurd h (by simp)
          · -- no sync branch matched
            injection h with h
            subst h
            simp at hs

/-- Witness for C2 at a concrete replicated mail message. -/
theorem sync_application_never_replicates_witness :
    ((["BULLETIN|", "MAIL|", "DELETE_BULLETIN|", "DELETE_MAIL|", "CHANNEL|"].any
      fun p => pyStartsWith "MAIL|!a|AL|!b|hi|text|mk-9" p) = true) ∧
    (∀ s ∈ ((⟨[], 1, [⟨1, "!a", "AL", "!b", "t", "hi", "text", "mk-9"⟩], 2, [], 1⟩,
        ([] : List Send)) : DB × List Send).2, s.dest = Dest.num BROADCAST_NUM) :=
  ⟨by decide,
    (sync_application_never_replicates "MAIL|!a|AL|!b|hi|text|mk-9" "t" 0 DB.empty _
      (by decide) rfl).1⟩

/-- C5: a `CHANNEL|` wire line from a configured peer is *not* treated as a
replication message: `on_receive` ignores it (its prefix list lacks
`CHANNEL|`), even though the sync branch of `process_message` — shown
third — would add the channel had it been reached. -/
theorem channel_sync_line_ignored :
    on_receive_route "CHANNEL|MeshNews|http://example.com" "!peer1" (some 7) 7 ["!peer1"] =
      RxAction.ignored ∧
    is_sync_message "CHANNEL|MeshNews|http://example.com" = false ∧
    process_sync_message "CHANNEL|MeshNews|http://example.com" "t" 0 DB.empty =
      some (dbOneChannel, []) := by
  refine ⟨by decide, by decide, by decide⟩

/-- C3: `delete_mail` ignores the claimed recipient (the result is the same
for any claimed value); when no stored mail carries the key it returns with
the table unchanged and sends nothing; otherwise it deletes exactly the rows
matching the key and the recipient re-read from storage, and fans the
deletion out. -/
theorem delete_mail_ignores_claimed_recipient (uid : String) (c c' : Option String)
    (nodes : List String) (db : DB) :
    delete_mail uid c nodes db = delete_mail uid c' nodes db ∧
    (db.mail.find? (fun m => m.uniqueId = uid) = none →
      delete_mail uid c nodes db = (db, [])) ∧
    (∀ row, db.mail.find? (fun m => m.uniqueId = uid) = some row →
      (delete_mail uid c nodes db).1.mail =
        db.mail.filter (fun m => !(m.uniqueId = uid && m.recipient = row.recipient)) ∧
      (delete_mail uid c nodes db).2 = send_delete_mail_to_bbs_nodes uid nodes) := by
  refine ⟨rfl, ?_, ?_⟩
  · intro h
    unfold delete_mail
    rw [h]
  · intro row h
    unfold delete_mail
    rw [h]
    exact ⟨rfl, rfl⟩

/-- Witness for C3: deleting the stored mail `mk-1` with a spoofed claimed
recipient still deletes by the stored recipient `!node5` and fans out. -/
theorem delete_mail_ignores_claimed_recipient_witness :
    (dbOneMail.mail.find? (fun m => m.uniqueId = "mk-1") =
      some ⟨1, "!node9", "BO", "!node5", "d1", "hi", "text", "mk-1"⟩) ∧
    (delete_mail "mk-1" (some "!intruder") ["!peer1"] dbOneMail).1.mail =
      dbOneMail.mail.filter (fun m => !(m.uniqueId = "mk-1" && m.recipient = "!node5")) ∧
    (delete_mail "mk-1" (some "!intruder") ["!peer1"] dbOneMail).2 =
      send_delete_mail_to_bbs_nodes "mk-1" ["!peer1"] :=
  ⟨by decide,
    (delete_mail_ignores_claimed_recipient "mk-1" (some "!intruder") none ["!peer1"]
      dbOneMail).2.2 ⟨1, "!node9", "BO", "!node5", "d1", "hi", "text", "mk-1"⟩ (by decide)⟩

/-- C4: a supplied non-empty replication key is stored verbatim and returned
unchanged by `add_bulletin` and `add_mail`; with no key supplied, a non-empty
key is minted, returned, and stored in the new row. -/
theorem add_replication_key_roundtrip (board sn subj content sid rid : String)
    (nodes : Option (List String)) (intf : Bool) (now : String) (r : Nat) (db : DB)
    (k : String) (hk : k ≠ "") :
    ((add_bulletin board sn subj content nodes intf (some k) now r db).1 = k ∧
      (add_bulletin board sn subj content nodes intf (some k) now r db).2.1.bulletins =
        db.bulletins ++ [⟨db.nextBulletinId, board, sn, now, subj, content, k⟩]) ∧
    ((add_mail sid sn rid subj content nodes intf (some k) now r db).1 = k ∧
      (add_mail sid sn rid subj content nodes intf (some k) now r db).2.1.mail =
        db.mail ++ [⟨db.nextMailId, sid, sn, rid, now, subj, content, k⟩]) ∧
    ((add_bulletin board sn subj content nodes intf none now r db).1 ≠ "" ∧
      (add_bulletin board sn subj content nodes intf none now r db).2.1.bulletins =
        db.bulletins ++ [⟨db.nextBulletinId, board, sn, now, subj, content,
          (add_bulletin board sn subj content nodes intf none now r db).1⟩]) ∧
    ((add_mail sid sn rid subj content nodes intf none now r db).1 ≠ "" ∧
      (add_mail sid sn rid subj content nodes intf none now r db).2.1.mail =
        db.mail ++ [⟨db.nextMailId, sid, sn, rid, now, subj, content,
          (add_mail sid sn rid subj content nodes intf none now r db).1⟩]) := by
  refine ⟨⟨?_, ?_⟩, ⟨?_, ?_⟩, ⟨?_, ?_⟩, ⟨?_, ?_⟩⟩ <;>
    simp [add_bulletin, add_mail, hk, uuid4String_ne_empty]

/-- Witness for C4 at a concrete supplied key. -/
theorem add_replication_key_roundtrip_witness :
    ("key-7" : String) ≠ "" ∧
    (add_bulletin "General" "AL" "s" "c" (some ["!peer1"]) true (some "key-7") "t" 0
      DB.empty).1 = "key-7" :=
  ⟨by decide,
    ((add_replication_key_roundtrip "General" "AL" "s" "c" "!a" "!b" (some ["!peer1"])
      true "t" 0 DB.empty "key-7" (by decide)).1).1⟩

/-- C8: applying the same bulletin creation twice with the same fields and
the same replication key inserts a second row: the store then holds two rows
with distinct local ids and the same replication key. -/
theorem creation_replay_not_idempotent (board sn subj content : String)
    (nodes : Option (List String)) (intf : Bool) (now now' : String) (r r' : Nat)
    (db : DB) (k : String) (hk : k ≠ "") :
    (add_bulletin board sn subj content nodes intf (some k) now' r'
        (add_bulletin board sn subj content nodes intf (some k) now r db).2.1).2.1.bulletins =
      db.bulletins ++ [⟨db.nextBulletinId, board, sn, now, subj, content, k⟩,
        ⟨db.nextBulletinId + 1, board, sn, now', subj, content, k⟩] ∧
    db.nextBulletinId ≠ db.nextBulletinId + 1 := by
  constructor
  · simp [add_bulletin, hk]
  · omega

/-- Witness for C8: replaying a replicated creation on an empty store leaves
two rows with ids 1 and 2 and the shared key `key123`. -/
theorem creation_replay_not_idempotent_witness :
    ("key123" : String) ≠ "" ∧
    (add_bulletin "General" "AL" "s" "c" (some []) true (some "key123") "t2" 0
        (add_bulletin "General" "AL" "s" "c" (some []) true (some "key123") "t1" 0
          DB.empty).2.1).2.1.bulletins =
      [⟨1, "General", "AL", "t1", "s", "c", "key123"⟩,
        ⟨2, "General", "AL", "t2", "s", "c", "key123"⟩] :=
  ⟨by decide,
    (creation_replay_not_idempotent "General" "AL" "s" "c" (some []) true "t1" "t2" 0 0
      DB.empty "key123" (by decide)).1⟩

/-- C9: posting to a board whose name is `urgent` case-insensitively makes
`add_bulletin` emit, besides the per-peer `BULLETIN|` lines, one notification
to the broadcast address; the notification contains the poster's short name
and the subject and differs from the `BULLETIN|` replication line. -/
theorem urgent_post_broadcast_notification (board sn subj content : String)
    (nodes : List String) (uid : Option String) (now : String) (r : Nat) (db : DB)
    (hb : pyLower board = "urgent") :
    (add_bulletin board sn subj content (some nodes) true uid now r db).2.2 =
      send_bulletin_to_bbs_nodes board sn subj content
        (add_bulletin board sn subj content (some nodes) true uid now r db).1 nodes ++
        [⟨urgentNotificationDb sn subj, Dest.num BROADCAST_NUM⟩] ∧
    urgentNotificationDb sn subj ≠
      bulletinSyncLine board sn subj content
        (add_bulletin board sn subj content (some nodes) true uid now r db).1 ∧
    (∃ p q, urgentNotificationDb sn subj = p ++ (sn ++ q)) ∧
    (∃ p q, urgentNotificationDb sn subj = p ++ (subj ++ q)) := by
  refine ⟨?_, ?_, ?_, ?_⟩
  · cases nodes <;>
      simp [add_bulletin, pyNodesAnd, hb, send_message, send_bulletin_to_bbs_nodes]
  · exact string_ne_of_head_ne _ _
      (by rw [urgentNotificationDb_head, bulletinSyncLine_head]; decide)
  · exact ⟨"ðŸ’¥NEW URGENT BULLETINðŸ’¥\nFrom: ", "\nTitle: " ++ subj,
      by unfold urgentNotificationDb; rw [string_append_assoc, string_append_assoc]⟩
  · refine ⟨"ðŸ’¥NEW URGENT BULLETINðŸ’¥\nFrom: " ++ sn ++ "\nTitle: ", "", ?_⟩
    unfold urgentNotificationDb
    cases subj
    simp [data_append]

/-- Witness for C9 at a concrete urgent post with one peer. -/
theorem urgent_post_broadcast_notification_witness :
    pyLower "Urgent" = "urgent" ∧
    (add_bulletin "Urgent" "AL" "Flood" "Take cover" (some ["!peer1"]) true
        (some "key-9") "t" 0 DB.empty).2.2 =
      send_bulletin_to_bbs_nodes "Urgent" "AL" "Flood" "Take cover"
        (add_bulletin "Urgent" "AL" "Flood" "Take cover" (some ["!peer1"]) true
          (some "key-9") "t" 0 DB.empty).1 ["!peer1"] ++
        [⟨urgentNotificationDb "AL" "Flood", Dest.num BROADCAST_NUM⟩] :=
  ⟨by decide,
    (urgent_post_broadcast_notification "Urgent" "AL" "Flood" "Take cover" ["!peer1"]
      (some "key-9") "t" 0 DB.empty (by decide)).1⟩

/-- C10: applying a replicated `BULLETIN|` line for an urgent board sends the
urgent broadcast notification twice — once inside `add_bulletin` (with the
store module's decoration) and once more in the sync branch of
`process_message` — both to the broadcast address. -/
theorem replicated_urgent_bulletin_double_broadcast (msg board sn subj content uid now :
    String) (r : Nat) (db : DB)
    (hpre : pyStartsWith msg "BULLETIN|" = true)
    (hsplit : splitPipe msg = ["BULLETIN", board, sn, subj, content, uid])
    (hb : pyLower board = "urgent") :
    ∃ db', process_sync_message msg now r db =
      some (db', [⟨urgentNotificationDb sn subj, Dest.num BROADCAST_NUM⟩,
        ⟨urgentNotificationSync sn subj, Dest.num BROADCAST_NUM⟩]) := by
  refine ⟨(add_bulletin board sn subj content (some []) true (some uid) now r db).2.1, ?_⟩
  unfold process_sync_message
  rw [if_pos hpre, hsplit]
  simp [add_bulletin_emptyPeers_sends, hb, send_message]

/-- Witness for C10 at a concrete replicated urgent bulletin. -/
theorem replicated_urgent_bulletin_double_broadcast_witness :
    pyStartsWith "BULLETIN|Urgent|AL|Flood|Take cover|key-10" "BULLETIN|" = true ∧
    pyLower "Urgent" = "urgent" ∧
    ∃ db', process_sync_message "BULLETIN|Urgent|AL|Flood|Take cover|key-10" "t" 0
        DB.empty =
      some (db', [⟨urgentNotificationDb "AL" "Flood", Dest.num BROADCAST_NUM⟩,
        ⟨urgentNotificationSync "AL" "Flood", Dest.num BROADCAST_NUM⟩]) :=
  ⟨by decide, by decide,
    replicated_urgent_bulletin_double_broadcast "BULLETIN|Urgent|AL|Flood|Take cover|key-10"
      "Urgent" "AL" "Flood" "Take cover" "key-10" "t" 0 DB.empty (by decide) (by decide)
      (by decide)⟩

/-- C6: with a non-empty allow-list, a sender whose node id is not on it who
chooses to post (`p`) on the Urgent board gets a refusal message, no bulletin
is created (the database is unchanged), and the session is redirected to the
board feature's entry (the BBS menu state, reached through step 1's `e`
path). -/
theorem urgent_post_denied_for_non_allowlisted (senderId : Nat) (msg board : String)
    (st : UserState) (iface : Iface) (cfg : Config) (w : World)
    (hboard : st.board = some board)
    (hurgent : pyLower board = "urgent")
    (hmsg : pyLower msg = "p")
    (hallowed : iface.allowedNodes ≠ [])
    (hnotin : pyInOpt (get_node_id_from_num senderId iface) iface.allowedNodes = false) :
    ∃ w', handle_bb_step2 senderId msg st iface cfg w = some w' ∧
      w'.db = w.db ∧
      w'.sends = w.sends ++
        [⟨"You don't have permission to post to this board.", Dest.num senderId⟩,
          ⟨build_menu cfg.bbsMenuItems "Menu", Dest.num senderId⟩] ∧
      get_user_state senderId w'.sessions =
        some ⟨"MENU", 1, some "bbs", none, none, none⟩ := by
  have hempty : iface.allowedNodes.isEmpty = false := by
    cases h : iface.allowedNodes
    · exact absurd h hallowed
    · rfl
  have h2 : handle_bb_step2 senderId msg st iface cfg w =
      some (handle_help_command senderId iface cfg (some "bbs")
        (emit "You don't have permission to post to this board." (Dest.num senderId) w)) := by
    unfold handle_bb_step2 handle_bb_step1
    rw [hboard]
    simp [hmsg, hurgent, hnotin, hempty, (by decide : pyLower "e" = "e")]
  refine ⟨_, h2, ?_, ?_, ?_⟩
  · simp [handle_help_command, emit]
  · simp [handle_help_command, emit, send_message]
  · simp [handle_help_command, emit, get_user_state_update]

/-- Witness for C6: sender 7 (absent from the node directory, hence not on
the allow-list `["!boss"]`) is refused on the Urgent board. -/
theorem urgent_post_denied_for_non_allowlisted_witness :
    pyLower "Urgent" = "urgent" ∧
    sampleIface.allowedNodes ≠ [] ∧
    pyInOpt (get_node_id_from_num 7 sampleIface) sampleIface.allowedNodes = false ∧
    ∃ w', handle_bb_step2 7 "p" ⟨"BULLETIN_ACTION", 2, none, some "Urgent", none, none⟩
        sampleIface sampleCfg sampleWorld = some w' ∧
      w'.db = sampleWorld.db ∧
      w'.sends = sampleWorld.sends ++
        [⟨"You don't have permission to post to this board.", Dest.num 7⟩,
          ⟨build_menu sampleCfg.bbsMenuItems "Menu", Dest.num 7⟩] ∧
      get_user_state 7 w'.sessions = some ⟨"MENU", 1, some "bbs", none, none, none⟩ :=
  ⟨by decide, by decide, by decide,
    urgent_post_denied_for_non_allowlisted 7 "p" "Urgent"
      ⟨"BULLETIN_ACTION", 2, none, some "Urgent", none, none⟩ sampleIface sampleCfg
      sampleWorld rfl (by decide) (by decide) (by decide) (by decide)⟩

/-- C7 counterexample: with *no* session, the single message `M` does not
open the mail menu — the router falls through to the main help menu, the
session becomes `{command: MAIN_MENU, step: 1}` (not `{command: MAIL,
step: 1}`), and the only send is the main menu. -/
theorem mail_shortcut_without_session_misses :
    ∃ w', process_message 5 "M" sampleIface sampleCfg false "t" 0 sampleWorld =
        some (ProcResult.done w') ∧
      get_user_state 5 w'.sessions = some (mkState "MAIN_MENU" 1) ∧
      get_user_state 5 w'.sessions ≠ some (mkState "MAIL" 1) ∧
      w'.sends = [⟨build_menu sampleCfg.mainMenuItems
        (sampleCfg.serviceName ++ " (" ++ mailHeaderDecoration ++ ":0)"), Dest.num 5⟩] := by
  refine ⟨_, rfl, by decide, by decide, by decide⟩

/-- C7 amended: the message `M` opens the mail menu when the sender's session
is the BBS menu (`{command: MENU, menu: bbs, step: 1}`): the response starts
with `Mail Menu` and the session becomes `{command: MAIL, step: 1}`. -/
theorem mail_shortcut_from_bbs_menu (senderId : Nat) (iface : Iface) (cfg : Config)
    (now : String) (r : Nat) (w : World)
    (hsession : get_user_state senderId w.sessions =
      some ⟨"MENU", 1, some "bbs", none, none, none⟩) :
    ∃ w', process_message senderId "M" iface cfg false now r w =
        some (ProcResult.done w') ∧
      (∃ rest, w'.sends = w.sends ++ [⟨"Mail Menu" ++ rest, Dest.num senderId⟩]) ∧
      get_user_state senderId w'.sessions = some (mkState "MAIL" 1) := by
  refine ⟨handle_mail_command senderId w, ?_, ?_, ?_⟩
  · unfold process_message
    rw [hsession]
    rfl
  · refine ⟨"\nWhat would you like to do with mail?\n[R]ead  [S]end E[X]IT", ?_⟩
    simp [handle_mail_command, emit, send_message]
  · simp [handle_mail_command, emit, get_user_state_update]

/-- Witness for C7's amended claim: sender 5 in the BBS menu session. -/
theorem mail_shortcut_from_bbs_menu_witness :
    get_user_state 5 [(5, some ⟨"MENU", 1, some "bbs", none, none, none⟩)] =
      some ⟨"MENU", 1, some "bbs", none, none, none⟩ ∧
    ∃ w', process_message 5 "M" sampleIface sampleCfg false "t" 0
        ⟨DB.empty, [(5, some ⟨"MENU", 1, some "bbs", none, none, none⟩)], []⟩ =
        some (ProcResult.done w') ∧
      (∃ rest, w'.sends = ([] : List Send) ++ [⟨"Mail Menu" ++ rest, Dest.num 5⟩]) ∧
      get_user_state 5 w'.sessions = some (mkState "MAIL" 1) :=
  ⟨by decide,
    mail_shortcut_from_bbs_menu 5 sampleIface sampleCfg "t" 0
      ⟨DB.empty, [(5, some ⟨"MENU", 1, some "bbs", none, none, none⟩)], []⟩ (by decide)⟩

end MeshBBS
